import Mathlib

/-!
Shallow embedding of the CloudDesk backup subsystem: the status-transition
table and record store (modelled from the spec where the service file is
absent from the snapshot), the backup controller's read and delete handlers,
the name validation of creation, and the background completion behaviour,
translated from server/controllers/backupController.js.
-/

namespace CloudDesk

/-- A backup row as the store hands it to the controller: `storageBytes`,
`storageGb`, `instanceId` and `errorMessage` are nullable columns, the
timestamps are milliseconds since the epoch (JS `Date` arithmetic), and
`status` is a string column. -/
structure Backup where
  id : String
  userEmail : String
  instanceId : Option String
  name : String
  gcpMachineImageName : String
  sourceInstanceName : String
  sourceInstanceZone : String
  storageBytes : Option ℚ
  storageGb : Option ℚ
  status : String
  errorMessage : Option String
  createdAt : ℚ
  updatedAt : ℚ
  deriving DecidableEq

/-- Modelled from the spec: `dbService.js` is absent from the snapshot (only
its tests are present); §4.3 and the tests give the four known status
values. -/
def VALID_STATUSES : List String := ["CREATING", "COMPLETED", "ERROR", "DELETED"]

/-- Modelled from the spec: the transition table of §4.3 — the allowed next
statuses per current status; a status outside the table allows nothing. -/
def validTransitions (current : String) : List String :=
  if current = "CREATING" then ["COMPLETED", "ERROR"]
  else if current = "COMPLETED" then ["DELETED"]
  else if current = "ERROR" then ["DELETED"]
  else if current = "DELETED" then []
  else []

/-- Modelled from the spec: the Status Transition Authority
`isValidStatusTransition(current, next)` of the absent `dbService.js`, as
exercised by dbService.backups.test.js 627-684; `none` stands for a JS
null or undefined current status, which is invalid. -/
def isValidStatusTransition (current : Option String) (next : String) : Bool :=
  match current with
  | none => false
  | some c => (validTransitions c).contains next

/-- Modelled from the spec: `updateStatus` of the Backup Record Store (§4.2),
as exercised by dbService.backups.test.js 840-968 — reject an unknown target
status, then reject an illegal transition, otherwise set the new status, set
`updatedAt` to now, and overwrite `storageBytes` or `errorMessage` only when
the argument is provided (`none` stands for a JS null argument). -/
def updateBackupStatus (b : Backup) (newStatus : String) (storageBytes : Option ℚ)
    (errorMessage : Option String) (now : ℚ) : Except String Backup :=
  if !(VALID_STATUSES.contains newStatus) then
    .error ("Invalid status: " ++ newStatus)
  else if !(isValidStatusTransition (some b.status) newStatus) then
    .error ("Invalid status transition from " ++ b.status ++ " to " ++ newStatus)
  else
    .ok { b with
      status := newStatus
      updatedAt := now
      storageBytes := match storageBytes with | some v => some v | none => b.storageBytes
      errorMessage := match errorMessage with | some m => some m | none => b.errorMessage }

/-- Modelled from the spec: the store applies `updateStatus` to the row with
the given id and leaves the table untouched when the update is rejected (the
service raises before issuing any UPDATE query). -/
def applyUpdateStatus (db : List Backup) (id : String) (newStatus : String)
    (storageBytes : Option ℚ) (errorMessage : Option String) (now : ℚ) :
    List Backup × Except String Backup :=
  match db.find? (fun b => b.id == id) with
  | none => (db, .error "Database query failed")
  | some b =>
    match updateBackupStatus b newStatus storageBytes errorMessage now with
    | .error e => (db, .error e)
    | .ok b2 => (db.map (fun x => if x.id == id then b2 else x), .ok b2)

/-- Modelled from the spec: `delete(id)` of the store semantically calls
`updateStatus(id, DELETED)` (§4.2), matched by the deleteBackup cases of
dbService.backups.test.js 1065-1200. -/
def dbDeleteBackup (b : Backup) (now : ℚ) : Except String Backup :=
  updateBackupStatus b "DELETED" none none now

/-- Bool-valued success test for a store result. -/
def exceptOk {ε α : Type} : Except ε α → Bool
  | .ok _ => true
  | .error _ => false

/-- The storage rate hard-coded in `getBackup`
(backupController.js 373): 2.306 IDR per GB per hour. -/
def STORAGE_RATE_PER_GB_HOUR : ℚ := 2306 / 1000

/-- JS `Math.round(x * 100) / 100` (backupController.js 388): round to two
decimal places, halves toward positive infinity. -/
def round2 (x : ℚ) : ℚ := (Int.floor (x * 100 + 1 / 2) : ℚ) / 100

/-- The end of the cost-accrual window in `getBackup`
(backupController.js 379-381): `updatedAt` for a DELETED backup, the current
wall-clock time otherwise. -/
def backupEndTime (b : Backup) (now : ℚ) : ℚ :=
  if b.status = "DELETED" then b.updatedAt else now

/-- The `currentCost` computation of `getBackup`
(backupController.js 372-389): 0 when `storageGb` is null or undefined,
otherwise `storageGb` times the clamped non-negative elapsed hours times the
rate, rounded to two decimals. -/
def backupCurrentCost (b : Backup) (now : ℚ) : ℚ :=
  match b.storageGb with
  | none => 0
  | some gb =>
    let diffMs := backupEndTime b now - b.createdAt
    let diffHours := max 0 (diffMs / (1000 * 60 * 60))
    round2 (gb * diffHours * STORAGE_RATE_PER_GB_HOUR)

/-- An HTTP response of the `getBackup` handler; `backup` carries the
returned row together with the attached `currentCost` (the JS handler
spreads them into one object). -/
structure GetResponse where
  status : Nat
  success : Bool
  error : Option String
  message : Option String
  backup : Option (Backup × ℚ)
  deriving DecidableEq

/-- `getBackup` (backupController.js 316-408): a falsy email or id is a 400,
a store failure a 503, a missing row a 404, a row of another owner a 403;
otherwise attach `backupCurrentCost` and answer 200. `none` for `email` and
`paramId` stands for a falsy JS value. -/
def getBackupHandler (email : Option String) (paramId : Option String)
    (dbGet : Except Unit (Option Backup)) (now : ℚ) : GetResponse :=
  match email with
  | none => ⟨400, false, some "Bad Request", some "User email not found in request", none⟩
  | some e =>
    match paramId with
    | none => ⟨400, false, some "Bad Request", some "Backup ID is required", none⟩
    | some _ =>
      match dbGet with
      | .error _ =>
        ⟨503, false, some "Service Unavailable", some "Database service temporarily unavailable", none⟩
      | .ok none => ⟨404, false, some "Not Found", some "Backup not found", none⟩
      | .ok (some b) =>
        if b.userEmail ≠ e then
          ⟨403, false, some "Forbidden", some "You do not have permission to access this backup", none⟩
        else
          ⟨200, true, none, none, some (b, backupCurrentCost b now)⟩

/-- A structured failure from the gcp service; either field may be absent,
and the controller falls back to fixed strings with JS `||`. -/
structure GcpError where
  error : Option String
  message : Option String
  deriving DecidableEq

/-- An HTTP response of the `deleteBackup` handler; `storeDeleteInvoked`
records whether control ever reached the `dbService.deleteBackup` call. -/
structure DeleteResponse where
  status : Nat
  success : Bool
  error : Option String
  message : Option String
  backup : Option Backup
  storeDeleteInvoked : Bool
  deriving DecidableEq

/-- `deleteBackup` (backupController.js 415-511): after the 400/503/404/403
guards, a machine-image delete failure is answered 500 with the adapter's
error before the store delete is reached; otherwise the store delete runs,
its failure is answered 503 and its success 200. `dbDelete` is the store's
delete applied to the fetched row. -/
def deleteBackupHandler (email : Option String) (paramId : Option String)
    (dbGet : Except Unit (Option Backup)) (gcpDelete : Except GcpError Unit)
    (dbDelete : Backup → Except String Backup) : DeleteResponse :=
  match email with
  | none => ⟨400, false, some "Bad Request", some "User email not found in request", none, false⟩
  | some e =>
    match paramId with
    | none => ⟨400, false, some "Bad Request", some "Backup ID is required", none, false⟩
    | some _ =>
      match dbGet with
      | .error _ =>
        ⟨503, false, some "Service Unavailable", some "Database service temporarily unavailable", none, false⟩
      | .ok none => ⟨404, false, some "Not Found", some "Backup not found", none, false⟩
      | .ok (some b) =>
        if b.userEmail ≠ e then
          ⟨403, false, some "Forbidden", some "You do not have permission to delete this backup", none, false⟩
        else
          match gcpDelete with
          | .error err =>
            ⟨500, false, some (err.error.getD "GCP_ERROR"),
              some (err.message.getD "Failed to delete machine image"), none, false⟩
          | .ok _ =>
            match dbDelete b with
            | .error _ =>
              ⟨503, false, some "Service Unavailable",
                some "Database service temporarily unavailable", none, true⟩
            | .ok b2 => ⟨200, true, none, some "Backup deleted successfully", some b2, true⟩

/-- The allowed-name charset of `createBackup`: the regex
`[^a-zA-Z0-9\-_ ]` (backupController.js 111) flags any character outside
this set. -/
def isAllowedNameChar (c : Char) : Bool :=
  decide (('a' ≤ c ∧ c ≤ 'z') ∨ ('A' ≤ c ∧ c ≤ 'Z') ∨ ('0' ≤ c ∧ c ≤ '9') ∨
    c = '-' ∨ c = '_' ∨ c = ' ')

/-- JS `String.prototype.trim` as `createBackup` uses it: strip leading and
trailing whitespace characters. -/
def jsTrim (s : String) : String :=
  String.mk (((s.data.dropWhile Char.isWhitespace).reverse.dropWhile Char.isWhitespace).reverse)

/-- The name-validation prefix of `createBackup`
(backupController.js 91-118): the empty-after-trim test first, then the raw
length over 100, then the charset test on the raw string; on acceptance the
name handed to the store is the trimmed string (line 177). -/
def validateBackupName (name : String) : Except String String :=
  if (jsTrim name).length = 0 then .error "Backup name cannot be empty"
  else if name.length > 100 then .error "Backup name cannot exceed 100 characters"
  else if name.data.any (fun c => !(isAllowedNameChar c)) then
    .error "Backup name contains invalid characters"
  else .ok (jsTrim name)

/-- What the background create phase does next
(backupController.js 199-225): a failed create command marks the backup
ERROR with the failure's message and returns early; success starts the
polling loop. -/
inductive BackgroundAction
  | markError (message : String)
  | startPolling
  deriving DecidableEq

def createPhase (r : Except GcpError Unit) : BackgroundAction :=
  match r with
  | .error e => .markError (e.message.getD "Failed to create machine image")
  | .ok _ => .startPolling

/-- The `totalStorageBytes` field of a describe result as JS sees it:
absent (undefined), null, or a number. -/
inductive StorageField
  | undefinedV
  | nullV
  | bytes (q : ℚ)
  deriving DecidableEq

structure ImageDetails where
  totalStorageBytes : StorageField
  deriving DecidableEq

/-- One `describeMachineImage` call as the polling loop observes it: a
resolved value (possibly a JS null object) or a rejection. -/
inductive DescribeOutcome
  | ok (imageDetails : Option ImageDetails)
  | err (e : GcpError)
  deriving DecidableEq

/-- What one iteration of the polling loop can decide: update to COMPLETED
with the reported size and stop, keep polling, or mark ERROR and stop (the
outer catch of backupController.js 262-274). -/
inductive PollAction
  | complete (storageBytes : Option ℚ)
  | continuePolling
  | errorStop (message : String)
  deriving DecidableEq

/-- One iteration of the polling loop (backupController.js 234-261): a
resolved describe whose `totalStorageBytes` is not undefined updates the
backup to COMPLETED with that value and stops; any other resolution leaves
`completed` false, and any rejected describe is caught by the inner handler
that logs and retries — both continue polling. -/
def pollStep (d : DescribeOutcome) : PollAction :=
  match d with
  | .ok (some det) =>
    match det.totalStorageBytes with
    | .undefinedV => .continuePolling
    | .nullV => .complete none
    | .bytes q => .complete (some q)
  | .ok none => .continuePolling
  | .err _ => .continuePolling

/-- True exactly on the `errorStop` action. -/
def PollAction.isErrorStop : PollAction → Bool
  | .errorStop _ => true
  | _ => false

/-- Demo-mode simulated size (backupController.js 282); `r` stands for the
`Math.random()` draw in the half-open unit interval. -/
def simulatedStorageBytes (r : ℚ) : ℚ := (10 + r * 40) * 1024 * 1024 * 1024

/-- Demo-mode completion delay in milliseconds (backupController.js 294). -/
def demoDelayMs (r : ℚ) : ℚ := 3000 + r * 2000

/-- The demo-mode completion update (backupController.js 284-289). -/
def demoComplete (b : Backup) (r : ℚ) (now : ℚ) : Except String Backup :=
  updateBackupStatus b "COMPLETED" (some (simulatedStorageBytes r)) none now

/-- Newest first: row `a` may precede row `b` when
`b.createdAt ≤ a.createdAt`. -/
def newerFirst (a b : Backup) : Prop := b.createdAt ≤ a.createdAt

instance : DecidableRel newerFirst :=
  fun a b => inferInstanceAs (Decidable (b.createdAt ≤ a.createdAt))

instance : IsTotal Backup newerFirst := ⟨fun a b => le_total b.createdAt a.createdAt⟩

instance : IsTrans Backup newerFirst := ⟨fun _ _ _ h1 h2 => le_trans h2 h1⟩

/-- Modelled from the spec: `getBackupsByUser` of the absent `dbService.js`;
its query, quoted verbatim in the repository's property test
src/unnamed/part_000, selects the rows with the caller's email and a status
other than DELETED, ordered by `created_at` descending. -/
def getBackupsByUser (db : List Backup) (email : String) : List Backup :=
  List.insertionSort newerFirst
    (db.filter (fun b => decide (b.userEmail = email ∧ b.status ≠ "DELETED")))

/-- The four valid edges of the sixteen-pair transition table. -/
def ALLOWED_PAIRS : List (String × String) :=
  [("CREATING", "COMPLETED"), ("CREATING", "ERROR"),
   ("COMPLETED", "DELETED"), ("ERROR", "DELETED")]

/-- A completed backup of 10 GB created at epoch, for concrete witnesses. -/
def backupA : Backup :=
  { id := "bak-1", userEmail := "u@example.com", instanceId := some "inst-1",
    name := "alpha", gcpMachineImageName := "img-1", sourceInstanceName := "vm-1",
    sourceInstanceZone := "us-central1-a", storageBytes := some 10737418240,
    storageGb := some 10, status := "COMPLETED", errorMessage := none,
    createdAt := 0, updatedAt := 0 }

/-- A backup still in CREATING, for concrete witnesses. -/
def backupCreating : Backup :=
  { id := "bak-2", userEmail := "u@example.com", instanceId := some "inst-1",
    name := "beta", gcpMachineImageName := "img-2", sourceInstanceName := "vm-1",
    sourceInstanceZone := "us-central1-a", storageBytes := none,
    storageGb := none, status := "CREATING", errorMessage := none,
    createdAt := 0, updatedAt := 0 }

/-- A deleted backup of 5 GB whose deletion was recorded at t = 1000 ms,
for concrete witnesses. -/
def backupDeleted : Backup :=
  { id := "bak-3", userEmail := "u@example.com", instanceId := none,
    name := "gamma", gcpMachineImageName := "img-3", sourceInstanceName := "vm-2",
    sourceInstanceZone := "us-west1-a", storageBytes := some 5368709120,
    storageGb := some 5, status := "DELETED", errorMessage := none,
    createdAt := 0, updatedAt := 1000 }

/-- A name of 101 raw characters whose trimmed length is 1, for concrete
witnesses. -/
def name101 : String := String.mk (List.replicate 100 ' ' ++ ['a'])

/-- C1: over the sixteen ordered pairs of known statuses,
`isValidStatusTransition` accepts exactly the four edges
CREATING→COMPLETED, CREATING→ERROR, COMPLETED→DELETED and ERROR→DELETED —
so in particular every same-status pair is rejected — and it rejects every
null/undefined current status and every current status outside the four. -/
theorem C1_transition_table_exact :
    (∀ c ∈ VALID_STATUSES, ∀ n ∈ VALID_STATUSES,
      (isValidStatusTransition (some c) n = true ↔ (c, n) ∈ ALLOWED_PAIRS)) ∧
    (∀ n : String, isValidStatusTransition none n = false) ∧
    (∀ c n : String, c ∉ VALID_STATUSES → isValidStatusTransition (some c) n = false) := by
  refine ⟨by decide, fun n => rfl, ?_⟩
  intro c n hc
  simp only [VALID_STATUSES, List.mem_cons, List.not_mem_nil, or_false, not_or] at hc
  obtain ⟨h1, h2, h3, h4⟩ := hc
  simp [isValidStatusTransition, validTransitions, h1, h2, h3, h4]

/-- Concrete instances of C1: a valid edge, a rejected same-status pair via
the table, and a rejected unknown current status. -/
theorem C1_transition_table_exact_witness :
    isValidStatusTransition (some "CREATING") "COMPLETED" = true ∧
    isValidStatusTransition (some "BOGUS") "COMPLETED" = false := by
  constructor
  · exact (C1_transition_table_exact.1 "CREATING" (by decide) "COMPLETED" (by decide)).mpr
      (by decide)
  · exact C1_transition_table_exact.2.2 "BOGUS" "COMPLETED" (by decide)

/-- C2: for every backup the read operation returns to its owner, the
attached `currentCost` equals `storageGb` times the elapsed hours times the
2.306 rate, rounded to two decimals, where the elapsed hours are
`max 0 ((endTime - createdAt) / 3600000)` milliseconds-to-hours; and the
cost is 0 whenever `storageGb` is null. -/
theorem C2_getBackup_cost_formula (em pid : String) (b : Backup) (now : ℚ)
    (hown : b.userEmail = em) :
    getBackupHandler (some em) (some pid) (.ok (some b)) now =
      ⟨200, true, none, none, some (b, backupCurrentCost b now)⟩ ∧
    (∀ gb, b.storageGb = some gb →
      backupCurrentCost b now =
        round2 (gb * max 0 ((backupEndTime b now - b.createdAt) / 3600000) * (2306 / 1000))) ∧
    (b.storageGb = none → backupCurrentCost b now = 0) := by
  refine ⟨by simp [getBackupHandler, hown], ?_, ?_⟩
  · intro gb hgb
    simp only [backupCurrentCost, hgb, STORAGE_RATE_PER_GB_HOUR]
    norm_num
  · intro hgb
    simp [backupCurrentCost, hgb]

/-- Concrete instance of C2: a 10 GB backup read one hour after creation
costs 23.06. -/
theorem C2_getBackup_cost_formula_witness :
    getBackupHandler (some "u@example.com") (some "bak-1") (.ok (some backupA)) 3600000 =
      ⟨200, true, none, none, some (backupA, backupCurrentCost backupA 3600000)⟩ ∧
    backupCurrentCost backupA 3600000 = 2306 / 100 := by
  constructor
  · exact (C2_getBackup_cost_formula "u@example.com" "bak-1" backupA 3600000 rfl).1
  · norm_num +decide [backupCurrentCost, backupA, backupEndTime, round2, STORAGE_RATE_PER_GB_HOUR]

/-- C3: for a DELETED backup with known size the cost window ends at
`updatedAt`, so the cost is identical at any two query times after the
deletion; for a backup in any other status the window ends at the query
time itself. -/
theorem C3_deleted_cost_frozen (b : Backup) (gb : ℚ) (t1 t2 : ℚ)
    (hdel : b.status = "DELETED") (hgb : b.storageGb = some gb)
    (_h1 : b.updatedAt < t1) (_h12 : t1 < t2) :
    backupCurrentCost b t1 = backupCurrentCost b t2 ∧
    (∀ c : Backup, ∀ t : ℚ, c.status ≠ "DELETED" → backupEndTime c t = t) := by
  constructor
  · simp [backupCurrentCost, backupEndTime, hdel, hgb]
  · intro c t hc
    simp [backupEndTime, hc]

/-- Concrete instance of C3: the deleted 5 GB backup costs the same at
t = 2000 and t = 3000, and a COMPLETED backup's window ends at the query
time. -/
theorem C3_deleted_cost_frozen_witness :
    backupCurrentCost backupDeleted 2000 = backupCurrentCost backupDeleted 3000 ∧
    backupEndTime backupA 500 = 500 := by
  constructor
  · exact (C3_deleted_cost_frozen backupDeleted 5 2000 3000 rfl rfl (by norm_num [backupDeleted])
      (by norm_num)).1
  · exact (C3_deleted_cost_frozen backupDeleted 5 2000 3000 rfl rfl (by norm_num [backupDeleted])
      (by norm_num)).2 backupA 500 (by decide)

/-- C4: `updateStatus` validates the transition first — an illegal target
(including an unknown status value) yields an error, the result is not a
success, and the store table is left entirely unchanged — while a successful
update carries the new status, sets `updatedAt` to now, preserves
`storageBytes` and `errorMessage` whenever the arguments are absent, and
never touches identity, owner or `createdAt`. -/

theorem C4_updateStatus_guarded (db : List Backup) (b : Backup) (ns : String)
    (sb : Option ℚ) (em : Option String) (now : ℚ)
    (hmem : db.find? (fun x => x.id == b.id) = some b) :
    (isValidStatusTransition (some b.status) ns = false →
      exceptOk (updateBackupStatus b ns sb em now) = false ∧
      (applyUpdateStatus db b.id ns sb em now).1 = db) ∧
    (∀ b2, updateBackupStatus b ns sb em now = .ok b2 →
      isValidStatusTransition (some b.status) ns = true ∧
      b2.status = ns ∧ b2.updatedAt = now ∧
      (sb = none → b2.storageBytes = b.storageBytes) ∧
      (em = none → b2.errorMessage = b.errorMessage) ∧
      b2.id = b.id ∧ b2.createdAt = b.createdAt ∧ b2.userEmail = b.userEmail) := by
  constructor
  · intro hinv
    have herr : exceptOk (updateBackupStatus b ns sb em now) = false := by
      unfold updateBackupStatus
      rw [hinv]
      cases hk : VALID_STATUSES.contains ns <;> simp [hk, exceptOk]
    refine ⟨herr, ?_⟩
    unfold applyUpdateStatus
    rw [hmem]
    rcases hres : updateBackupStatus b ns sb em now with e | b2
    · simp [hres]
    · rw [hres] at herr
      simp [exceptOk] at herr
  · intro b2 hok
    unfold updateBackupStatus at hok
    cases hk : VALID_STATUSES.contains ns with
    | false => rw [hk] at hok; simp at hok
    | true =>
      rw [hk] at hok
      cases hv : isValidStatusTransition (some b.status) ns with
      | false => rw [hv] at hok; simp at hok
      | true =>
        rw [hv] at hok
        simp only [Bool.not_true, Bool.false_eq_true, if_false, Except.ok.injEq] at hok
        subst hok
        refine ⟨rfl, rfl, rfl, ?_, ?_, rfl, rfl, rfl⟩
        · intro h; subst h; rfl
        · intro h; subst h; rfl

/-- Concrete instances of C4: deleting a CREATING backup is rejected with
the table untouched, and CREATING to COMPLETED succeeds preserving the
absent fields. -/
theorem C4_updateStatus_guarded_witness :
    exceptOk (updateBackupStatus backupCreating "DELETED" none none 5000) = false ∧
    (applyUpdateStatus [backupCreating] "bak-2" "DELETED" none none 5000).1 = [backupCreating] ∧
    ∃ b2, updateBackupStatus backupCreating "COMPLETED" none none 5000 = .ok b2 ∧
      b2.status = "COMPLETED" ∧ b2.updatedAt = 5000 ∧
      b2.storageBytes = backupCreating.storageBytes ∧
      b2.errorMessage = backupCreating.errorMessage := by
  have h := C4_updateStatus_guarded [backupCreating] backupCreating "DELETED" none none 5000 rfl
  have hinv := h.1 rfl
  have h2 := C4_updateStatus_guarded [backupCreating] backupCreating "COMPLETED" none none 5000 rfl
  refine ⟨hinv.1, hinv.2, ?_⟩
  have hres : updateBackupStatus backupCreating "COMPLETED" none none 5000 =
      .ok { backupCreating with status := "COMPLETED", updatedAt := 5000 } := rfl
  obtain ⟨hv, hst, hup, hsb, hem, _, _, _⟩ := h2.2 _ hres
  exact ⟨_, hres, hst, hup, hsb rfl, hem rfl⟩


/-- C5 counterexample: an authentication failure from the describe call —
not the distinguished "not ready" condition — makes the polling loop
continue, rather than transition the backup to ERROR and stop. -/
theorem C5_poll_auth_failure_continues :
    pollStep (.err ⟨some "AUTH_ERROR", some "Authentication failed"⟩) = .continuePolling ∧
    (pollStep (.err ⟨some "AUTH_ERROR", some "Authentication failed"⟩)).isErrorStop = false := by
  exact ⟨rfl, rfl⟩

/-- C5 amended: every describe failure, of any kind, is handled by the
inner catch that continues polling; no iteration of the polling loop ever
issues the ERROR-and-stop action — only a failure of the create command
itself marks the backup ERROR with that failure's message. -/
theorem C5_poll_failures_always_continue :
    (∀ e : GcpError, pollStep (.err e) = .continuePolling) ∧
    (∀ d : DescribeOutcome, (pollStep d).isErrorStop = false) ∧
    (∀ e : GcpError,
      createPhase (.error e) = .markError (e.message.getD "Failed to create machine image")) := by
  refine ⟨fun e => rfl, ?_, fun e => rfl⟩
  intro d
  cases d with
  | ok det =>
    cases det with
    | none => rfl
    | some det2 =>
      cases det2 with
      | mk sf => cases sf <;> rfl
  | err e => rfl

/-- C6: when the machine-image delete fails, `deleteBackup` answers 500
carrying the adapter's error, and the store delete is never invoked, so no
field of the record changes. -/
theorem C6_delete_aborts_on_gcp_failure (em pid : String) (b : Backup)
    (e : GcpError) (dbDelete : Backup → Except String Backup)
    (hown : b.userEmail = em) :
    deleteBackupHandler (some em) (some pid) (.ok (some b)) (.error e) dbDelete =
      ⟨500, false, some (e.error.getD "GCP_ERROR"),
        some (e.message.getD "Failed to delete machine image"), none, false⟩ := by
  simp [deleteBackupHandler, hown]

/-- Concrete instance of C6: an adapter failure with no structured fields
is answered 500 with the fallback strings and no store delete. -/
theorem C6_delete_aborts_on_gcp_failure_witness :
    deleteBackupHandler (some "u@example.com") (some "bak-1") (.ok (some backupA))
      (.error ⟨none, none⟩) (fun x => dbDeleteBackup x 0) =
      ⟨500, false, some "GCP_ERROR", some "Failed to delete machine image", none, false⟩ :=
  C6_delete_aborts_on_gcp_failure "u@example.com" "bak-1" backupA ⟨none, none⟩
    (fun x => dbDeleteBackup x 0) rfl

/-- C7 counterexample: the owner deleting a CREATING backup, with the
machine-image delete succeeding, is answered 503 — not the 409 the claim
requires. -/
theorem C7_creating_delete_answers_503 :
    (deleteBackupHandler (some "u@example.com") (some "bak-2") (.ok (some backupCreating))
      (.ok ()) (fun x => dbDeleteBackup x 9000)).status = 503 ∧
    ((deleteBackupHandler (some "u@example.com") (some "bak-2") (.ok (some backupCreating))
      (.ok ()) (fun x => dbDeleteBackup x 9000)).status == 409) = false := by
  exact ⟨rfl, rfl⟩

/-- C7 amended: for an owned CREATING backup whose adapter delete
succeeds, the store rejects the DELETED transition with an
invalid-transition error, and the controller surfaces it as the same 503
store-unavailable response it uses for any store failure; no distinct 409
response exists. -/
theorem C7_invalid_transition_surfaces_as_503 (em pid : String) (b : Backup) (now : ℚ)
    (hown : b.userEmail = em) (hst : b.status = "CREATING") :
    dbDeleteBackup b now = .error "Invalid status transition from CREATING to DELETED" ∧
    deleteBackupHandler (some em) (some pid) (.ok (some b)) (.ok ())
      (fun x => dbDeleteBackup x now) =
      ⟨503, false, some "Service Unavailable",
        some "Database service temporarily unavailable", none, true⟩ := by
  have hdel : dbDeleteBackup b now =
      .error "Invalid status transition from CREATING to DELETED" := by
    unfold dbDeleteBackup updateBackupStatus
    rw [hst]
    rfl
  exact ⟨hdel, by simp [deleteBackupHandler, hown, hdel]⟩

/-- Concrete instance of the amended C7. -/
theorem C7_invalid_transition_surfaces_as_503_witness :
    dbDeleteBackup backupCreating 9000 =
      .error "Invalid status transition from CREATING to DELETED" ∧
    deleteBackupHandler (some "u@example.com") (some "bak-2") (.ok (some backupCreating))
      (.ok ()) (fun x => dbDeleteBackup x 9000) =
      ⟨503, false, some "Service Unavailable",
        some "Database service temporarily unavailable", none, true⟩ :=
  C7_invalid_transition_surfaces_as_503 "u@example.com" "bak-2" backupCreating 9000 rfl rfl


/-- C8: the list operation returns a backup iff it is in the table, belongs
to the requested owner, and is not DELETED — so no other owner's and no
DELETED backup appears — and the result is ordered by `createdAt`
descending. -/
theorem C8_listByOwner_spec (db : List Backup) (e : String) :
    (∀ b : Backup, b ∈ getBackupsByUser db e ↔
      (b ∈ db ∧ b.userEmail = e ∧ b.status ≠ "DELETED")) ∧
    (getBackupsByUser db e).Pairwise (fun a c => c.createdAt ≤ a.createdAt) := by
  constructor
  · intro b
    unfold getBackupsByUser
    rw [(List.perm_insertionSort newerFirst _).mem_iff, List.mem_filter]
    simp
  · exact List.sorted_insertionSort newerFirst _

/-- C9: the 100-character bound is enforced on the raw, untrimmed name —
any raw length over 100 is rejected with the exceed message regardless of
the trimmed length — with the empty-after-trim test before the length test
before the charset test, and on acceptance the stored name is the trimmed
string. -/
theorem C9_name_validation_order :
    (∀ name : String, (jsTrim name).length = 0 →
      validateBackupName name = .error "Backup name cannot be empty") ∧
    (∀ name : String, (jsTrim name).length ≠ 0 → name.length > 100 →
      validateBackupName name = .error "Backup name cannot exceed 100 characters") ∧
    (∀ name : String, (jsTrim name).length ≠ 0 → name.length ≤ 100 →
      name.data.any (fun c => !(isAllowedNameChar c)) = true →
      validateBackupName name = .error "Backup name contains invalid characters") ∧
    (∀ name res, validateBackupName name = .ok res → res = jsTrim name ∧ name.length ≤ 100) := by
  refine ⟨?_, ?_, ?_, ?_⟩
  · intro name h
    simp [validateBackupName, h]
  · intro name h1 h2
    rw [validateBackupName, if_neg h1, if_pos h2]
  · intro name h1 h2 h3
    rw [validateBackupName, if_neg h1, if_neg (by omega), if_pos h3]
  · intro name res hok
    unfold validateBackupName at hok
    split_ifs at hok with h1 h2 h3
    rw [Except.ok.injEq] at hok
    exact ⟨hok.symm, by omega⟩

/-- Concrete instance of C9: a 101-character name of 100 spaces and one
letter trims to length 1 yet is rejected for exceeding 100 characters, and
an accepted padded name is stored trimmed. -/
theorem C9_name_validation_order_witness :
    name101.length = 101 ∧ (jsTrim name101).length = 1 ∧
    validateBackupName name101 = .error "Backup name cannot exceed 100 characters" ∧
    jsTrim " demo backup 1 " = "demo backup 1" := by
  refine ⟨by decide, by decide, ?_, ?_⟩
  · exact C9_name_validation_order.2.1 name101 (by decide) (by decide)
  · exact (C9_name_validation_order.2.2.2 " demo backup 1 " "demo backup 1" rfl).1.symm

/-- C10: a demo-mode (non-remote-managed) backup completes from CREATING
to COMPLETED with a synthesized size in [10 GiB, 50 GiB) after a delay in
[3000 ms, 5000 ms), both depending on the random draw rather than fixed. -/
theorem C10_demo_completion (b : Backup) (r s now : ℚ)
    (hr0 : 0 ≤ r) (hr1 : r < 1) (hs0 : 0 ≤ s) (hs1 : s < 1)
    (hst : b.status = "CREATING") :
    10 * 2 ^ 30 ≤ simulatedStorageBytes r ∧ simulatedStorageBytes r < 50 * 2 ^ 30 ∧
    3000 ≤ demoDelayMs s ∧ demoDelayMs s < 5000 ∧
    demoComplete b r now =
      .ok { b with
        status := "COMPLETED"
        updatedAt := now
        storageBytes := some (simulatedStorageBytes r) } := by
  refine ⟨?_, ?_, ?_, ?_, ?_⟩
  · unfold simulatedStorageBytes; nlinarith
  · unfold simulatedStorageBytes; nlinarith
  · unfold demoDelayMs; nlinarith
  · unfold demoDelayMs; nlinarith
  · unfold demoComplete updateBackupStatus
    rw [hst]
    rfl

/-- Concrete instance of C10 at the draw one half: 30 GiB size, 4000 ms
delay, successful CREATING-to-COMPLETED update. -/
theorem C10_demo_completion_witness :
    10 * 2 ^ 30 ≤ simulatedStorageBytes (1 / 2) ∧
    simulatedStorageBytes (1 / 2) < 50 * 2 ^ 30 ∧
    3000 ≤ demoDelayMs (1 / 2) ∧ demoDelayMs (1 / 2) < 5000 ∧
    demoComplete backupCreating (1 / 2) 4000 =
      .ok { backupCreating with
        status := "COMPLETED"
        updatedAt := 4000
        storageBytes := some (simulatedStorageBytes (1 / 2)) } :=
  C10_demo_completion backupCreating (1 / 2) (1 / 2) 4000 (by norm_num) (by norm_num)
    (by norm_num) (by norm_num) rfl

end CloudDesk
